import Mathlib

/-!
# Verification of the aibridge throughput-bounded dispatcher

Shallow embedding of `aibridge/llm.py` (the `LLM` base class) and
`aibridge/LoadBalancedLLM.py` (the rate-limited, concurrency-bounded
dispatcher), with theorems settling the spec's claims about them.

Python floats used as timestamps are modelled as rationals; Python's
unbounded ints as `ℤ`/`ℕ`.
-/

/-! ## Embedding of `aibridge/llm.py`, class `LLM` -/

/-- The `cost_structure` argument of `LLM.__init__`.  Python allows an
arbitrary value here; the code distinguishes falsy values (`None`, the
empty dict, ...), dict values, and truthy non-dict values (e.g. a
non-empty list), so the embedding carries exactly those cases, with dict
values modelled as association lists from string keys to numeric costs. -/
inductive PyCostArg where
  | pyNone
  | pyDict (entries : List (String × ℚ))
  | pyTruthyNonDict
deriving DecidableEq, Repr

/-- Python truthiness of the `cost_structure` argument: `None` is falsy,
a dict is truthy iff non-empty. -/
def PyCostArg.truthy : PyCostArg → Bool
  | .pyNone => false
  | .pyDict es => !es.isEmpty
  | .pyTruthyNonDict => true

/-- The instance attributes of `LLM` set by `__init__`:
`cost_per_1M_tokens_input`, `cost_per_1M_tokens_output` (either both from
the cost structure or both `None`), and the two token counters. -/
structure LLMState where
  cost_per_1M_tokens_input : Option ℚ
  cost_per_1M_tokens_output : Option ℚ
  token_counter_input : ℤ
  token_counter_output : ℤ
deriving DecidableEq, Repr

/-- `LLM.__init__(cost_structure)` (llm.py lines 6–21).
`if cost_structure:` is a truthiness test (distributed here over the three
argument shapes: `None` and an empty dict are falsy); inside it, the code
raises `ValueError` when the argument is not a dict instance or lacks either
of the keys `cost_per_1M_tokens_input` / `cost_per_1M_tokens_output`;
otherwise both cost fields are read from the dict (`lookup` returns the
stored value, present because the key-membership test passed).  On the falsy
branch both cost fields stay `None`.  Both token counters start at 0. -/
def LLM_init : PyCostArg → Except String LLMState
  | .pyNone => .ok ⟨none, none, 0, 0⟩
  | .pyTruthyNonDict => .error "Cost structure must be a dictionary with keys"
  | .pyDict es =>
      if es.isEmpty then .ok ⟨none, none, 0, 0⟩
      else if (es.lookup "cost_per_1M_tokens_input").isSome &&
              (es.lookup "cost_per_1M_tokens_output").isSome then
        .ok ⟨es.lookup "cost_per_1M_tokens_input",
             es.lookup "cost_per_1M_tokens_output", 0, 0⟩
      else .error "Cost structure must be a dictionary with keys"

/-- `LLM.update_token_counters` (llm.py lines 30–33), as the sequential
(single-thread) state transformer: both counters are incremented. -/
def update_token_counters (s : LLMState) (input_tokens output_tokens : ℤ) :
    LLMState :=
  { s with
    token_counter_input := s.token_counter_input + input_tokens
    token_counter_output := s.token_counter_output + output_tokens }

/-- `LLM.get_cost` (llm.py lines 43–50): if both per-million-token cost
fields are set, `tokens_in * cost_in / 1e6 + tokens_out * cost_out / 1e6`,
else `0.0`. -/
def get_cost (s : LLMState) : ℚ :=
  match s.cost_per_1M_tokens_input, s.cost_per_1M_tokens_output with
  | some ci, some co =>
      s.token_counter_input * ci / 1000000 + s.token_counter_output * co / 1000000
  | _, _ => 0

/-- Does a `PyCostArg` hold a dict containing both cost keys? (the condition
whose negation makes llm.py line 12 raise, given a truthy argument). -/
def dictWithBothKeys : PyCostArg → Bool
  | .pyDict es =>
      (es.lookup "cost_per_1M_tokens_input").isSome &&
      (es.lookup "cost_per_1M_tokens_output").isSome
  | _ => false

/-- C9: `get_cost` returns exactly
`token_counter_input * cost_per_1M_tokens_input / 1000000
 + token_counter_output * cost_per_1M_tokens_output / 1000000`
when both per-million-token cost fields are set, and `0.0` whenever either
cost field is absent, regardless of the token counters. -/
theorem get_cost_exact (s : LLMState) :
    (∀ ci co, s.cost_per_1M_tokens_input = some ci →
        s.cost_per_1M_tokens_output = some co →
        get_cost s = s.token_counter_input * ci / 1000000
          + s.token_counter_output * co / 1000000) ∧
    ((s.cost_per_1M_tokens_input = none ∨ s.cost_per_1M_tokens_output = none) →
        get_cost s = 0) := by
  constructor
  · intro ci co hci hco
    simp [get_cost, hci, hco]
  · intro h
    rcases hci : s.cost_per_1M_tokens_input with _ | ci
    · simp [get_cost, hci]
    · rcases hco : s.cost_per_1M_tokens_output with _ | co
      · simp [get_cost, hci, hco]
      · rcases h with h | h
        · rw [hci] at h; exact absurd h (by simp)
        · rw [hco] at h; exact absurd h (by simp)

/-- Witness for C9 at concrete states: cost fields 3 and 5 per 1M tokens with
2,000,000 input and 1,000,000 output tokens give cost 11; a state missing the
output cost field gives cost 0. -/
theorem get_cost_exact_witness :
    get_cost ⟨some 3, some 5, 2000000, 1000000⟩ = 11 ∧
    get_cost ⟨some 3, none, 2000000, 1000000⟩ = 0 := by
  constructor
  · have h := (get_cost_exact ⟨some 3, some 5, 2000000, 1000000⟩).1 3 5 rfl rfl
    rw [h]; norm_num
  · exact (get_cost_exact ⟨some 3, none, 2000000, 1000000⟩).2 (Or.inr rfl)

/-- C10: `LLM.__init__` raises `ValueError` exactly when a non-empty (truthy)
`cost_structure` is given that is not a dict containing both cost keys;
otherwise it succeeds, sets both cost fields from the dict (or to `None` when
no cost structure is given), and zeroes both token counters. -/
theorem LLM_init_raises_iff (a : PyCostArg) :
    ((LLM_init a).isOk = false ↔ (a.truthy = true ∧ dictWithBothKeys a = false)) ∧
    (∀ s, LLM_init a = .ok s →
      s.token_counter_input = 0 ∧ s.token_counter_output = 0 ∧
      (∀ es, a = .pyDict es → a.truthy = true →
        s.cost_per_1M_tokens_input = es.lookup "cost_per_1M_tokens_input" ∧
        s.cost_per_1M_tokens_output = es.lookup "cost_per_1M_tokens_output") ∧
      (a.truthy = false →
        s.cost_per_1M_tokens_input = none ∧ s.cost_per_1M_tokens_output = none)) := by
  cases a with
  | pyNone =>
      refine ⟨by simp [LLM_init, PyCostArg.truthy, dictWithBothKeys, Except.isOk,
        Except.toBool], ?_⟩
      intro s hs
      rw [LLM_init, Except.ok.injEq] at hs
      subst hs
      simp
  | pyTruthyNonDict =>
      refine ⟨by simp [LLM_init, PyCostArg.truthy, dictWithBothKeys, Except.isOk,
        Except.toBool], ?_⟩
      intro s hs
      rw [LLM_init] at hs
      exact absurd hs (by simp)
  | pyDict es =>
      constructor
      · by_cases he : es.isEmpty
        · simp [LLM_init, PyCostArg.truthy, dictWithBothKeys, he, Except.isOk,
            Except.toBool]
        · by_cases hk : ((es.lookup "cost_per_1M_tokens_input").isSome &&
              (es.lookup "cost_per_1M_tokens_output").isSome) = true
          · simp [LLM_init, PyCostArg.truthy, dictWithBothKeys, he, hk, Except.isOk,
              Except.toBool]
          · simp [LLM_init, PyCostArg.truthy, dictWithBothKeys, he, hk, Except.isOk,
              Except.toBool]
      · intro s hs
        rw [LLM_init] at hs
        by_cases he : es.isEmpty
        · rw [if_pos he, Except.ok.injEq] at hs
          subst hs
          refine ⟨rfl, rfl, ?_, fun _ => ⟨rfl, rfl⟩⟩
          intro es' hes' htr
          simp [PyCostArg.truthy, he] at htr
        · rw [if_neg he] at hs
          by_cases hk : ((es.lookup "cost_per_1M_tokens_input").isSome &&
              (es.lookup "cost_per_1M_tokens_output").isSome) = true
          · rw [if_pos hk, Except.ok.injEq] at hs
            subst hs
            refine ⟨rfl, rfl, ?_, ?_⟩
            · intro es' hes' _
              rw [PyCostArg.pyDict.injEq] at hes'
              subst hes'
              exact ⟨rfl, rfl⟩
            · intro htr
              simp [PyCostArg.truthy, he] at htr
          · rw [if_neg hk] at hs
            exact absurd hs (by simp)

/-- Witness for C10: a dict with both keys succeeds, its state has zero
counters and cost fields taken from the dict; a dict missing the output key
raises. -/
theorem LLM_init_raises_iff_witness :
    (LLM_init (.pyDict [("cost_per_1M_tokens_input", 3)])).isOk = false ∧
    ∃ s, LLM_init (.pyDict [("cost_per_1M_tokens_input", 3),
        ("cost_per_1M_tokens_output", 5)]) = .ok s ∧
      s.token_counter_input = 0 ∧ s.token_counter_output = 0 ∧
      s.cost_per_1M_tokens_input = some 3 ∧ s.cost_per_1M_tokens_output = some 5 := by
  constructor
  · exact (LLM_init_raises_iff (.pyDict [("cost_per_1M_tokens_input", 3)])).1.mpr
      (by constructor <;> rfl)
  · refine ⟨⟨some 3, some 5, 0, 0⟩, rfl, ?_⟩
    have h := (LLM_init_raises_iff (.pyDict [("cost_per_1M_tokens_input", 3),
        ("cost_per_1M_tokens_output", 5)])).2 ⟨some 3, some 5, 0, 0⟩ rfl
    exact ⟨h.1, h.2.1, rfl, rfl⟩

/-! ## Embedding of `aibridge/LoadBalancedLLM.py`

The dispatcher is threaded code; it is embedded as a state machine.  One
`tick now` event is one iteration of `_queue_loop` at wall-clock time `now`
(the loop body between two `time.sleep(0.05)` calls); one `enq r` event is
one caller executing the locked enqueue in `get_completion`.  The worker
pool (`ThreadPoolExecutor(max_workers=concurrency)`) is embedded by its
documented semantics: a submitted task starts immediately when fewer than
`max_workers` tasks are running, otherwise it waits in the executor's
internal (unbounded) work queue.  The schedule modelled here keeps worker
tasks running until `shutdown(wait=True)`, which is one admissible thread
interleaving. -/

/-- Wall-clock instants (Python `time.time()` float seconds) as rationals. -/
abbrev Time := ℚ

/-- One queued completion request: its `request_time` (`time.time()` captured
in `get_completion` when enqueueing) and an identity for its
`threading.Event`/`result_holder` pair. -/
structure Request where
  requestTime : Time
  id : ℕ
deriving DecidableEq, Repr

/-- The two constructor limits (Python ints). -/
structure DispatcherConfig where
  requests_per_minute : ℤ
  concurrency : ℤ
deriving DecidableEq, Repr

/-- The mutable state of a `LoadBalancedLLM`:
`timestamps` is `self.timestamps` (deque, head = oldest); `queue` is
`self.queue` (FIFO, head = next to dequeue); `running`/`execQueue` are the
executor's active tasks and internal backlog; `completed` are the tasks whose
`_process_request` has finished (their `event` is set); `admitted` is the
history of dispatches: `(now, r)` means request `r` was dequeued and
submitted to the executor during the loop iteration at time `now`;
`stopEvent` is `self.stop_event`. -/
structure DispatcherState where
  timestamps : List Time
  queue : List Request
  running : List Request
  execQueue : List Request
  completed : List Request
  admitted : List (Time × Request)
  stopEvent : Bool
deriving DecidableEq, Repr

/-- Lines 117–118: `while self.timestamps and self.timestamps[0] < now - 60:
self.timestamps.popleft()` — drop from the front while the head is older
than 60 seconds. -/
def evictOld (now : Time) : List Time → List Time
  | [] => []
  | t :: ts => if t < now - 60 then evictOld now ts else t :: ts

/-- `ThreadPoolExecutor.submit`: run at once if a worker is free, else park
the task in the executor's internal work queue. -/
def executorSubmit (conc : ℤ) (r : Request) (s : DispatcherState) :
    DispatcherState :=
  if (s.running.length : ℤ) < conc then { s with running := s.running ++ [r] }
  else { s with execQueue := s.execQueue ++ [r] }

/-- One iteration of `_queue_loop` (lines 113–132) at time `now`:
exit if `stop_event` is set; evict stale timestamps; if the queue is
non-empty and `len(self.timestamps) < self.requests_per_minute`, dequeue the
head request, append its `request_time` (not `now`) to `timestamps`, and
submit `_process_request` to the executor. -/
def queueIter (cfg : DispatcherConfig) (s : DispatcherState) (now : Time) :
    DispatcherState :=
  if s.stopEvent then s
  else
    let ts := evictOld now s.timestamps
    match s.queue with
    | [] => { s with timestamps := ts }
    | r :: rest =>
        if (ts.length : ℤ) < cfg.requests_per_minute then
          executorSubmit cfg.concurrency r
            { s with
              timestamps := ts ++ [r.requestTime]
              queue := rest
              admitted := s.admitted ++ [(now, r)] }
        else { s with timestamps := ts }

/-- The enqueue in `get_completion` (lines 69–72): put the request at the
back of the FIFO queue (the lock serialises concurrent enqueues, so they
form a total order — the order of `enq` events in a run). -/
def enqueue (r : Request) (s : DispatcherState) : DispatcherState :=
  { s with queue := s.queue ++ [r] }

/-- An observable event of a dispatcher run: a caller enqueueing, or one
loop iteration at a given time. -/
inductive Ev where
  | enq (r : Request)
  | tick (now : Time)
deriving DecidableEq, Repr

def step (cfg : DispatcherConfig) (s : DispatcherState) : Ev → DispatcherState
  | .enq r => enqueue r s
  | .tick now => queueIter cfg s now

/-- Dispatcher state right after `__init__`: empty deque, empty queue, idle
executor, stop event clear. -/
def initState : DispatcherState := ⟨[], [], [], [], [], [], false⟩

/-- Run the dispatcher over a sequence of events from the initial state. -/
def run (cfg : DispatcherConfig) (evs : List Ev) : DispatcherState :=
  evs.foldl (step cfg) initState

/-- The submission order: the requests enqueued during a run, in the order
their callers enqueued them. -/
def submissions : List Ev → List Request
  | [] => []
  | .enq r :: evs => r :: submissions evs
  | .tick _ :: evs => submissions evs

/-- Number of admissions whose dispatch time lies in the 60-second window
ending at `t` (half-open: `t - 60 < time ≤ t`). -/
def admissionsInWindow (log : List (Time × Request)) (t : Time) : ℕ :=
  (log.filter (fun a => decide (t - 60 < a.1) && decide (a.1 ≤ t))).length

/-- `executor.shutdown(wait=True)`: block until every task already handed to
the executor (running or parked in its internal queue) has finished; each
finished `_process_request` sets its request's event. -/
def executorShutdownWait (s : DispatcherState) : DispatcherState :=
  { s with
    running := []
    execQueue := []
    completed := s.completed ++ s.running ++ s.execQueue }

/-- `stop_worker` (lines 134–140): set `stop_event`, join the loop thread
(after which no further loop iteration runs), then
`executor.shutdown(wait=True)`.  This is the schedule in which the loop
thread observes the flag immediately. -/
def stop_worker (s : DispatcherState) : DispatcherState :=
  executorShutdownWait { s with stopEvent := true }

/-- Is the `threading.Event` of request `r` set in state `s`?  It is set
exactly by the `finally` of `_process_request`, i.e. when the task
completed. -/
def eventIsSet (s : DispatcherState) (r : Request) : Bool :=
  s.completed.contains r

/-- `ThreadPoolExecutor(max_workers=n)` — CPython raises
`ValueError("max_workers must be greater than 0")` when `n <= 0`; the
constructed pool is otherwise opaque here. -/
def threadPoolExecutorNew (max_workers : ℤ) : Except String Unit :=
  if max_workers ≤ 0 then .error "max_workers must be greater than 0"
  else .ok ()

/-- `LoadBalancedLLM.__init__` (lines 17–59): rebuild a cost dict from the
child's cost fields when both are set and call `LLM.__init__` with it (with
`None` otherwise), store the two limits unvalidated, create the empty
deque/queue, create the executor (the only step that can raise, and only
for `max_workers <= 0`), and start the loop thread.  Returns the wrapper's
base-class state, the stored configuration, and the initial dispatcher
state. -/
def LoadBalancedLLM_init (childCostIn childCostOut : Option ℚ)
    (max_requests_per_minute max_concurrent_requests : ℤ) :
    Except String (LLMState × DispatcherConfig × DispatcherState) :=
  match (match childCostIn, childCostOut with
    | some ci, some co =>
        LLM_init (.pyDict [("cost_per_1M_tokens_input", ci),
          ("cost_per_1M_tokens_output", co)])
    | _, _ => LLM_init .pyNone) with
  | .error e => .error e
  | .ok base =>
      match threadPoolExecutorNew max_concurrent_requests with
      | .error e => .error e
      | .ok _ =>
          .ok (base, ⟨max_requests_per_minute, max_concurrent_requests⟩, initState)

/-! ## Dispatcher lemmas and claim theorems -/

/-- Eviction soundness: starting from a sorted deque (the code only ever
appends timestamps produced by later enqueues), every timestamp surviving
`evictOld` is within the trailing 60-second span. -/
theorem evictOld_removes_stale (now : Time) :
    ∀ ts : List Time, List.Sorted (· ≤ ·) ts →
      ∀ t ∈ evictOld now ts, now - 60 ≤ t := by
  intro ts
  induction ts with
  | nil => intro _ t ht; simp [evictOld] at ht
  | cons t0 ts ih =>
      intro hs t ht
      rw [evictOld] at ht
      rw [List.sorted_cons] at hs
      by_cases h0 : t0 < now - 60
      · rw [if_pos h0] at ht
        exact ih hs.2 t ht
      · rw [if_neg h0] at ht
        rcases List.mem_cons.mp ht with rfl | hmem
        · exact le_of_not_lt h0
        · exact le_trans (le_of_not_lt h0) (hs.1 t hmem)

/-- One step changes the sequence `admitted-requests ++ pending-queue` only
by appending the newly enqueued request (if any): dequeues move the head of
the queue to the tail of the admission log. -/
theorem step_submission_invariant (cfg : DispatcherConfig) (s : DispatcherState)
    (e : Ev) :
    ((step cfg s e).admitted.map Prod.snd) ++ (step cfg s e).queue =
      (s.admitted.map Prod.snd) ++ s.queue ++
        (match e with | .enq r => [r] | .tick _ => []) := by
  cases e with
  | enq r => simp [step, enqueue]
  | tick now =>
      obtain ⟨tss, qq, ru, exq, co, ad, st⟩ := s
      cases st with
      | true => simp [step, queueIter]
      | false =>
          cases qq with
          | nil => simp [step, queueIter]
          | cons r rest =>
              by_cases hrl : (((evictOld now tss).length : ℤ) <
                  cfg.requests_per_minute)
              · by_cases hc : ((ru.length : ℤ) < cfg.concurrency) <;>
                  simp [step, queueIter, executorSubmit, hrl, hc]
              · simp [step, queueIter, hrl]

/-- Folded form of `step_submission_invariant` over a whole run. -/
theorem foldl_submission_invariant (cfg : DispatcherConfig) :
    ∀ (evs : List Ev) (s : DispatcherState),
      (((evs.foldl (step cfg) s).admitted.map Prod.snd) ++
          (evs.foldl (step cfg) s).queue) =
        (s.admitted.map Prod.snd) ++ s.queue ++ submissions evs
  | [], s => by simp [submissions]
  | e :: evs, s => by
      rw [List.foldl_cons, foldl_submission_invariant cfg evs (step cfg s e),
        step_submission_invariant]
      cases e <;> simp [submissions]

/-- C7: admission follows FIFO submission order.  Over any interleaving of
caller enqueues and dispatcher loop iterations, the sequence of requests
admitted into execution is an initial segment (prefix) of the sequence of
submitted requests, in submission order; hence if R1 is submitted before R2
and R2 has been admitted, R1 was admitted earlier — a later request never
jumps ahead of an earlier one still waiting in the queue. -/
theorem admission_follows_fifo (cfg : DispatcherConfig) (evs : List Ev) :
    ((run cfg evs).admitted.map Prod.snd) <+: submissions evs :=
  ⟨(run cfg evs).queue, by
    have h := foldl_submission_invariant cfg evs initState
    simpa [run, initState] using h⟩

/-- C2 (refuted, code bug): the rate window stores each request's
*submission* timestamp, not its admission time, so a backlog defeats the
rate limit.  With `max_requests_per_minute = 1`, three requests submitted at
t = 0, 1, 2 and loop iterations at t = 0, 61, 62, the requests are admitted
at t = 0, 61 and 62: two admissions fall inside the 60-second window ending
at t = 62, exceeding the limit of 1. -/
theorem rate_limit_window_exceeded :
    (admissionsInWindow
      (run ⟨1, 10⟩ [.enq ⟨0, 0⟩, .enq ⟨1, 1⟩, .enq ⟨2, 2⟩,
        .tick 0, .tick 61, .tick 62]).admitted 62 : ℤ) = 2 ∧
    (DispatcherConfig.mk 1 10).requests_per_minute < 2 := by
  norm_num [run, step, queueIter, evictOld, executorSubmit, enqueue, initState,
    admissionsInWindow]

/-- C3 counterexample: an admission check at `now = 70` for a request
submitted at time 0 records the timestamp 0 — the request's submission
time — not 70, the time of the admission check. -/
theorem admission_records_submit_time_not_now :
    (queueIter ⟨1, 10⟩ ⟨[], [⟨0, 0⟩], [], [], [], [], false⟩ 70).timestamps = [0] ∧
    (queueIter ⟨1, 10⟩ ⟨[], [⟨0, 0⟩], [], [], [], [], false⟩ 70).timestamps ≠ [70] := by
  norm_num [queueIter, evictOld, executorSubmit]

/-- C3 (amended): each admission check first evicts every stored timestamp
older than 60 seconds (all of them, given the sorted deque the code
maintains), then, if the remaining count is strictly below
`max_requests_per_minute`, records the dequeued request's *submission*
timestamp (`request_time`, not the admission-check time `now`) in the window
and grants admission; otherwise it records nothing and denies admission. -/
theorem admission_check_spec (cfg : DispatcherConfig) (s : DispatcherState)
    (now : Time) (r : Request) (rest : List Request)
    (hstop : s.stopEvent = false) (hq : s.queue = r :: rest) :
    (List.Sorted (· ≤ ·) s.timestamps →
      ∀ t ∈ evictOld now s.timestamps, now - 60 ≤ t) ∧
    (((evictOld now s.timestamps).length : ℤ) < cfg.requests_per_minute →
      (queueIter cfg s now).timestamps =
        evictOld now s.timestamps ++ [r.requestTime] ∧
      (queueIter cfg s now).queue = rest ∧
      (queueIter cfg s now).admitted = s.admitted ++ [(now, r)]) ∧
    (¬ ((evictOld now s.timestamps).length : ℤ) < cfg.requests_per_minute →
      (queueIter cfg s now).timestamps = evictOld now s.timestamps ∧
      (queueIter cfg s now).queue = s.queue ∧
      (queueIter cfg s now).admitted = s.admitted) := by
  obtain ⟨tss, qq, ru, exq, co, ad, st⟩ := s
  dsimp only at hstop hq
  subst hstop
  subst hq
  refine ⟨fun hsort t ht => evictOld_removes_stale now tss hsort t ht, ?_, ?_⟩
  · intro hlt
    by_cases hc : ((ru.length : ℤ) < cfg.concurrency) <;>
      simp [queueIter, executorSubmit, hlt, hc]
  · intro hlt
    simp [queueIter, hlt]

/-- Witness for C3 (amended): the admission check of
`admission_records_submit_time_not_now` grants and appends the request's
submission timestamp 0 to the evicted window. -/
theorem admission_check_spec_witness :
    (queueIter ⟨1, 10⟩ ⟨[], [⟨0, 0⟩], [], [], [], [], false⟩ 70).timestamps =
      evictOld 70 [] ++ [(⟨0, 0⟩ : Request).requestTime] := by
  exact ((admission_check_spec ⟨1, 10⟩ ⟨[], [⟨0, 0⟩], [], [], [], [], false⟩ 70
    ⟨0, 0⟩ [] rfl rfl).2.1 (by norm_num [evictOld])).1

/-- C4 counterexample: with `max_concurrent_requests = 1` and one task
already running (no free slot), a loop iteration still dequeues and submits
the next request, which the executor parks in its internal queue — the
dispatch does not wait for a free slot, and the pool does queue work
internally. -/
theorem dispatch_ignores_free_slots :
    ((⟨[], [⟨1, 1⟩], [⟨0, 0⟩], [], [], [], false⟩ :
        DispatcherState).running.length : ℤ) =
      (DispatcherConfig.mk 100 1).concurrency ∧
    (queueIter ⟨100, 1⟩ ⟨[], [⟨1, 1⟩], [⟨0, 0⟩], [], [], [], false⟩ 5).admitted =
      [(5, ⟨1, 1⟩)] ∧
    (queueIter ⟨100, 1⟩ ⟨[], [⟨1, 1⟩], [⟨0, 0⟩], [], [], [], false⟩ 5).execQueue =
      [⟨1, 1⟩] := by
  norm_num [queueIter, evictOld, executorSubmit]

/-- C4 (amended): the dispatcher loop dequeues and submits when exactly two
conditions hold — the admission queue is non-empty and the rate window is
strictly below its limit; the worker pool's occupancy is not consulted.
When all workers are busy the submitted task is queued inside the pool
(`ThreadPoolExecutor`'s internal work queue) rather than rejected. -/
theorem dispatch_conditions (cfg : DispatcherConfig) (s : DispatcherState)
    (now : Time) (r : Request) (rest : List Request)
    (hstop : s.stopEvent = false) (hq : s.queue = r :: rest)
    (hlt : ((evictOld now s.timestamps).length : ℤ) < cfg.requests_per_minute) :
    (queueIter cfg s now).admitted = s.admitted ++ [(now, r)] ∧
    ((s.running.length : ℤ) < cfg.concurrency →
      (queueIter cfg s now).running = s.running ++ [r] ∧
      (queueIter cfg s now).execQueue = s.execQueue) ∧
    (¬ (s.running.length : ℤ) < cfg.concurrency →
      (queueIter cfg s now).running = s.running ∧
      (queueIter cfg s now).execQueue = s.execQueue ++ [r]) := by
  obtain ⟨tss, qq, ru, exq, co, ad, st⟩ := s
  dsimp only at hstop hq hlt ⊢
  subst hstop
  subst hq
  by_cases hc : ((ru.length : ℤ) < cfg.concurrency) <;>
    simp [queueIter, executorSubmit, hlt, hc]

/-- Witness for C4 (amended): the dispatch of `dispatch_ignores_free_slots`
lands in the executor's internal queue because no worker is free. -/
theorem dispatch_conditions_witness :
    (queueIter ⟨100, 1⟩ ⟨[], [⟨1, 1⟩], [⟨0, 0⟩], [], [], [], false⟩ 5).execQueue =
      ([] : List Request) ++ [⟨1, 1⟩] := by
  exact ((dispatch_conditions ⟨100, 1⟩ ⟨[], [⟨1, 1⟩], [⟨0, 0⟩], [], [], [], false⟩ 5
    ⟨1, 1⟩ [] rfl rfl (by norm_num [evictOld])).2.2 (by norm_num)).2

/-- C5 counterexample: constructing with `max_requests_per_minute = 0` (a
non-positive limit) succeeds — no construction-time error is raised. -/
theorem nonpositive_rpm_accepted_at_construction :
    (LoadBalancedLLM_init none none 0 1).isOk = true := by
  rfl

/-- C5 (amended): construction fails only for non-positive
`max_concurrent_requests` (the `ValueError` raised by
`ThreadPoolExecutor(max_workers=...)`); a non-positive
`max_requests_per_minute` is accepted at construction, and at runtime it
does not raise either — the admission check `len(timestamps) < limit` is
then never true, so no request is ever admitted (callers block forever). -/
theorem construction_validation (cin cout : Option ℚ) (rpm conc : ℤ) :
    ((LoadBalancedLLM_init cin cout rpm conc).isOk = true ↔ 0 < conc) ∧
    (rpm ≤ 0 → ∀ (s : DispatcherState) (now : Time),
      (queueIter ⟨rpm, conc⟩ s now).admitted = s.admitted ∧
      (queueIter ⟨rpm, conc⟩ s now).running = s.running ∧
      (queueIter ⟨rpm, conc⟩ s now).execQueue = s.execQueue) := by
  constructor
  · rcases cin with _ | ci <;> rcases cout with _ | co <;>
      by_cases hc : conc ≤ 0 <;>
      simp [LoadBalancedLLM_init, LLM_init, threadPoolExecutorNew, hc,
        List.lookup, Except.isOk, Except.toBool] <;>
      omega
  · intro hrpm s now
    obtain ⟨tss, qq, ru, exq, co, ad, st⟩ := s
    cases st with
    | true => simp [queueIter]
    | false =>
        cases qq with
        | nil => simp [queueIter]
        | cons r rest =>
            have hnot : ¬ (((evictOld now tss).length : ℤ) < rpm) := by
              have : (0 : ℤ) ≤ ((evictOld now tss).length : ℤ) := Int.ofNat_nonneg _
              omega
            simp [queueIter, hnot]

/-- Witness for C5 (amended): with `max_requests_per_minute = -1` the
constructor succeeds (refuting a construction-time error) and an admission
check on a non-empty queue admits nothing. -/
theorem construction_validation_witness :
    ((LoadBalancedLLM_init none none (-1) 2).isOk = true ↔ (0 : ℤ) < 2) ∧
    (queueIter ⟨-1, 2⟩ ⟨[], [⟨0, 0⟩], [], [], [], [], false⟩ 5).admitted =
      (⟨[], [⟨0, 0⟩], [], [], [], [], false⟩ : DispatcherState).admitted := by
  refine ⟨(construction_validation none none (-1) 2).1, ?_⟩
  exact ((construction_validation none none (-1) 2).2 (by norm_num)
    ⟨[], [⟨0, 0⟩], [], [], [], [], false⟩ 5).1

/-- C6 (refuted, code bug): `stop_worker` invoked while one request is
in-flight and one is still in the admission queue.  The in-flight request
completes and the pool drains to zero outstanding tasks, but the queued
request is never dispatched, never completed, and never signalled: its
event stays unset, so its caller blocks in `get_completion` forever with no
report of any kind. -/
theorem shutdown_abandons_queued_request :
    (stop_worker (run ⟨10, 5⟩ [.enq ⟨0, 0⟩, .enq ⟨0, 1⟩, .tick 0])).running = [] ∧
    (stop_worker (run ⟨10, 5⟩ [.enq ⟨0, 0⟩, .enq ⟨0, 1⟩, .tick 0])).execQueue = [] ∧
    eventIsSet (stop_worker (run ⟨10, 5⟩ [.enq ⟨0, 0⟩, .enq ⟨0, 1⟩, .tick 0]))
      ⟨0, 0⟩ = true ∧
    (stop_worker (run ⟨10, 5⟩ [.enq ⟨0, 0⟩, .enq ⟨0, 1⟩, .tick 0])).queue =
      [⟨0, 1⟩] ∧
    eventIsSet (stop_worker (run ⟨10, 5⟩ [.enq ⟨0, 0⟩, .enq ⟨0, 1⟩, .tick 0]))
      ⟨0, 1⟩ = false := by
  norm_num [run, step, queueIter, evictOld, executorSubmit, enqueue, initState,
    stop_worker, executorShutdownWait, eventIsSet]

/-! ## Worker task execution (`_process_request`) and result delivery -/

/-- Outcome of the wrapped provider call `self.llm.get_completion(prompt)`:
a completion string, or a raised `ProviderError` (carried as its message). -/
inductive ProviderOutcome where
  | ok (completion : String)
  | raises (e : String)
deriving DecidableEq, Repr

/-- The caller's `result_holder` dict: the only key ever written is
`"completion"`, so the dict is its optional value. -/
structure ResultHolder where
  completion : Option String
deriving DecidableEq, Repr

/-- What one executed worker task leaves behind: the request's
`result_holder`, whether its `event` was set, the wrapper's token counters,
and the exception (if any) escaping `_process_request` into the executor's
future, which nobody ever reads. -/
structure ProcessOutcome where
  holder : ResultHolder
  eventSet : Bool
  counters : LLMState
  escapedException : Option String
deriving DecidableEq, Repr

/-- `_process_request` (LoadBalancedLLM.py lines 78–106) for one request,
with the provider call's behaviour and the child usage readings
(`get_token_counter` before/after, as (input, output) pairs) as parameters:
`try:` read usage-before if cost-tracked; call the provider (a raise jumps
straight to `finally`); read usage-after, add the delta via
`update_token_counters`; write `result_holder["completion"]`;
`finally: event.set()`. -/
def process_request (child_has_cost : Bool) (usage_before usage_after : ℤ × ℤ)
    (provider : ProviderOutcome) (wrapper : LLMState) : ProcessOutcome :=
  match provider with
  | .raises e => ⟨⟨none⟩, true, wrapper, some e⟩
  | .ok completion =>
      let wrapper' :=
        if child_has_cost then
          update_token_counters wrapper (usage_after.1 - usage_before.1)
            (usage_after.2 - usage_before.2)
        else wrapper
      ⟨⟨some completion⟩, true, wrapper', none⟩

/-- What the blocking caller gets back from `get_completion` (lines 74–76)
once the event is set: `result_holder["completion"]` — the stored string, or
a `KeyError` when the key was never written. -/
inductive CallerResult where
  | value (s : String)
  | keyError
  | providerError (e : String)
deriving DecidableEq, Repr

/-- The caller's read `return result_holder["completion"]`. -/
def get_completion_receive (h : ResultHolder) : CallerResult :=
  match h.completion with
  | some s => .value s
  | none => .keyError

/-- C1 (refuted, code bug): when the provider call raises, `_process_request`
sets the event (unblocking the caller) but writes **no** outcome — neither a
value nor a failure indicator — into the result slot; the caller's
`result_holder["completion"]` then raises `KeyError`, not the provider's
error.  On the success path the slot is written exactly once, so the claim
fails specifically on the raising exit path. -/
theorem provider_error_not_delivered :
    (process_request false (0, 0) (0, 0) (.raises "boom")
        ⟨none, none, 0, 0⟩).eventSet = true ∧
    (process_request false (0, 0) (0, 0) (.raises "boom")
        ⟨none, none, 0, 0⟩).holder.completion = none ∧
    get_completion_receive (process_request false (0, 0) (0, 0) (.raises "boom")
        ⟨none, none, 0, 0⟩).holder = .keyError ∧
    get_completion_receive (process_request false (0, 0) (0, 0) (.raises "boom")
        ⟨none, none, 0, 0⟩).holder ≠ .providerError "boom" ∧
    get_completion_receive (process_request false (0, 0) (0, 0)
        (.ok "hi") ⟨none, none, 0, 0⟩).holder = .value "hi" := by
  refine ⟨rfl, rfl, rfl, ?_, rfl⟩
  intro h
  exact absurd h (by simp [process_request, get_completion_receive])

/-! ## Concurrent token-counter updates (`update_token_counters` race)

`self.token_counter_input += input_tokens` (llm.py line 32) is not atomic
in CPython: it compiles to a load of the attribute, an add, and a store,
and the GIL may be released between bytecodes.  Two worker threads calling
`update_token_counters` concurrently (no lock is taken) are modelled as two
read-modify-write programs over the shared counter, interleaved by an
arbitrary schedule. -/

/-- Progress of one thread's `+=`: not yet started, value loaded (held in
the thread's evaluation stack), or stored. -/
inductive RmwPhase where
  | notStarted
  | readDone (r : ℤ)
  | done
deriving DecidableEq, Repr

/-- Shared counter plus the two threads' progress. -/
structure RaceState where
  counter : ℤ
  th1 : RmwPhase
  th2 : RmwPhase
deriving DecidableEq, Repr

/-- One bytecode step of a thread adding `d`: load the shared counter, or
store the previously loaded value plus `d`. -/
def rmwStep (d : ℤ) (counter : ℤ) : RmwPhase → RmwPhase × ℤ
  | .notStarted => (.readDone counter, counter)
  | .readDone r => (.done, r + d)
  | .done => (.done, counter)

/-- Run the schedule: `true` steps thread 1 (adding `d1`), `false` steps
thread 2 (adding `d2`); the counter starts at 0. -/
def raceRun (d1 d2 : ℤ) (sched : List Bool) : RaceState :=
  sched.foldl
    (fun s t =>
      if t then
        let p := rmwStep d1 s.counter s.th1
        ⟨p.2, p.1, s.th2⟩
      else
        let p := rmwStep d2 s.counter s.th2
        ⟨p.2, s.th1, p.1⟩)
    ⟨0, .notStarted, .notStarted⟩

/-- C8 (refuted, code bug): `update_token_counters` takes no lock, so two
concurrent completions can interleave their read-modify-write of the shared
counter and lose an update.  With both requests reporting a delta of 5 and
the schedule read₁ read₂ write₁ write₂, both threads run to completion but
the accumulated total is 5, not the exact sum 10 of the two per-request
deltas. -/
theorem token_counter_lost_update :
    (raceRun 5 5 [true, false, true, false]).th1 = .done ∧
    (raceRun 5 5 [true, false, true, false]).th2 = .done ∧
    (raceRun 5 5 [true, false, true, false]).counter = 5 ∧
    (raceRun 5 5 [true, false, true, false]).counter ≠ 5 + 5 := by
  refine ⟨rfl, rfl, rfl, ?_⟩
  intro h
  simp [raceRun, rmwStep] at h
